import Mathlib

/-!
Verification of the signal-to-control mapping core of a VRM 1.0 face/body
tracking application.

The development shallowly embeds two adapter crates:

* `crates/expression_adapter/src/lib.rs` — `ArkitToVrmAdapter::to_vrm_expressions`
  maps a frame of named ARKit blendshape coefficients to VRM expression
  weights.  All of its arithmetic is affine (means, comparisons against
  decimal thresholds, clamping), so it is embedded over `ℚ` and is fully
  executable.

* `crates/pose_adapter/src/lib.rs` — `MediaPipePoseAdapter::landmarks_to_bone_rotations`
  maps 33 MediaPipe pose world landmarks to VRM bone rotations.  It uses
  `normalize`, `acos`, and axis-angle quaternion construction, so it is
  embedded over `ℝ`.  Unchecked slice indexing (`landmarks[i]`, which panics
  when out of bounds in the source language) is modelled with `List.get?`:
  the embedded functions return `Option`, where `none` marks a would-be
  panic, and totality is proved separately.

Decimal literals (`0.5`, `0.3`, `0.9999`, …) are embedded as exact rationals
or reals; the source stores them in 32-bit binary floating point, whose
nearest representable values differ from the decimals by less than 1e-7.
No claim under study depends on that rounding.
-/

namespace VrmFaceTracking

/-- VRM 1.0 expression preset names, from `VrmExpressionPreset` in
`crates/expression_adapter/src/lib.rs`. -/
inductive VrmExpressionPreset where
  | Happy
  | Angry
  | Sad
  | Relaxed
  | Surprised
  | Aa
  | Ih
  | Ou
  | Ee
  | Oh
  | Blink
  | BlinkLeft
  | BlinkRight
  | LookUp
  | LookDown
  | LookLeft
  | LookRight
  | Neutral
  deriving DecidableEq, Repr

/-- `VrmExpressionPreset::as_str`: the canonical VRM expression name. -/
def VrmExpressionPreset.asStr : VrmExpressionPreset → String
  | .Happy => "happy"
  | .Angry => "angry"
  | .Sad => "sad"
  | .Relaxed => "relaxed"
  | .Surprised => "surprised"
  | .Aa => "aa"
  | .Ih => "ih"
  | .Ou => "ou"
  | .Ee => "ee"
  | .Oh => "oh"
  | .Blink => "blink"
  | .BlinkLeft => "blinkLeft"
  | .BlinkRight => "blinkRight"
  | .LookUp => "lookUp"
  | .LookDown => "lookDown"
  | .LookLeft => "lookLeft"
  | .LookRight => "lookRight"
  | .Neutral => "neutral"

/-- `f32::clamp(lo, hi)` on rationals: `lo` when below, `hi` when above. -/
def clampQ (x lo hi : ℚ) : ℚ := min (max x lo) hi

/-- A VRM expression with its weight value (`VrmExpression`). -/
structure VrmExpression where
  preset : VrmExpressionPreset
  weight : ℚ
  deriving DecidableEq, Repr

/-- `VrmExpression::new`: stores the weight clamped to `[0, 1]`. -/
def VrmExpression.new (preset : VrmExpressionPreset) (weight : ℚ) : VrmExpression :=
  ⟨preset, clampQ weight 0 1⟩

/-- A frame of raw blendshapes: the embedding of `HashMap<String, f32>` as an
association list (each key at most once; `lookup` finds the first binding). -/
abbrev BlendshapeFrame := List (String × ℚ)

/-- `HashMap::get` on the association-list embedding: the value at the first
binding whose key equals `name`, if any. -/
def lookupQ : BlendshapeFrame → String → Option ℚ
  | [], _ => none
  | (k, v) :: rest, name => if name = k then some v else lookupQ rest name

/-- The helper closure `get` in `to_vrm_expressions`:
`raw_blendshapes.get(name).copied().unwrap_or(0.0)`. -/
def getBlendshape (raw : BlendshapeFrame) (name : String) : ℚ :=
  (lookupQ raw name).getD 0

/-- `(get("eyeBlinkLeft") + get("eyeBlinkRight")) * 0.5`. -/
def blinkMean (raw : BlendshapeFrame) : ℚ :=
  (getBlendshape raw "eyeBlinkLeft" + getBlendshape raw "eyeBlinkRight") * 0.5

/-- `(get("mouthSmileLeft") + get("mouthSmileRight")) * 0.5`. -/
def smileMean (raw : BlendshapeFrame) : ℚ :=
  (getBlendshape raw "mouthSmileLeft" + getBlendshape raw "mouthSmileRight") * 0.5

/-- `(get("mouthFrownLeft") + get("mouthFrownRight")) * 0.5`. -/
def frownMean (raw : BlendshapeFrame) : ℚ :=
  (getBlendshape raw "mouthFrownLeft" + getBlendshape raw "mouthFrownRight") * 0.5

/-- `(get("eyeLookUpLeft") + get("eyeLookUpRight")) * 0.5`. -/
def lookUpMean (raw : BlendshapeFrame) : ℚ :=
  (getBlendshape raw "eyeLookUpLeft" + getBlendshape raw "eyeLookUpRight") * 0.5

/-- `(get("eyeLookDownLeft") + get("eyeLookDownRight")) * 0.5`. -/
def lookDownMean (raw : BlendshapeFrame) : ℚ :=
  (getBlendshape raw "eyeLookDownLeft" + getBlendshape raw "eyeLookDownRight") * 0.5

/-- `(get("eyeLookInLeft") + get("eyeLookOutRight")) * 0.5`. -/
def lookLeftMean (raw : BlendshapeFrame) : ℚ :=
  (getBlendshape raw "eyeLookInLeft" + getBlendshape raw "eyeLookOutRight") * 0.5

/-- `(get("eyeLookOutLeft") + get("eyeLookInRight")) * 0.5`. -/
def lookRightMean (raw : BlendshapeFrame) : ℚ :=
  (getBlendshape raw "eyeLookOutLeft" + getBlendshape raw "eyeLookInRight") * 0.5

/-- `ArkitToVrmAdapter::to_vrm_expressions`.  The source pushes each
expression onto a vector under its emission condition, in this exact order;
the embedding concatenates the corresponding conditional singletons. -/
def toVrmExpressions (raw : BlendshapeFrame) : List VrmExpression :=
  (if getBlendshape raw "eyeBlinkLeft" > 0 then
    [VrmExpression.new .BlinkLeft (getBlendshape raw "eyeBlinkLeft")] else [])
  ++ (if getBlendshape raw "eyeBlinkRight" > 0 then
    [VrmExpression.new .BlinkRight (getBlendshape raw "eyeBlinkRight")] else [])
  ++ (if blinkMean raw > 0 then [VrmExpression.new .Blink (blinkMean raw)] else [])
  ++ (if lookUpMean raw > 0 then [VrmExpression.new .LookUp (lookUpMean raw)] else [])
  ++ (if lookDownMean raw > 0 then [VrmExpression.new .LookDown (lookDownMean raw)] else [])
  ++ (if lookLeftMean raw > 0 then [VrmExpression.new .LookLeft (lookLeftMean raw)] else [])
  ++ (if lookRightMean raw > 0 then [VrmExpression.new .LookRight (lookRightMean raw)] else [])
  ++ (if smileMean raw > 0.3 then [VrmExpression.new .Happy (smileMean raw)] else [])
  ++ (if frownMean raw > 0.3 then [VrmExpression.new .Sad (frownMean raw)] else [])
  ++ (if getBlendshape raw "jawOpen" > 0.5 then
    [VrmExpression.new .Aa (getBlendshape raw "jawOpen")] else [])
  ++ (if getBlendshape raw "mouthPucker" > 0.5 then
    [VrmExpression.new .Ou (getBlendshape raw "mouthPucker")] else [])
  ++ (if getBlendshape raw "mouthFunnel" > 0.5 then
    [VrmExpression.new .Oh (getBlendshape raw "mouthFunnel")] else [])

/-!
Pose adapter (`crates/pose_adapter/src/lib.rs`), embedded over `ℝ`.
-/

noncomputable section

/-- A 3-component vector (glam `Vec3`) over the reals. -/
structure Vec3 where
  x : ℝ
  y : ℝ
  z : ℝ

/-- Componentwise vector subtraction. -/
def Vec3.sub (a b : Vec3) : Vec3 := ⟨a.x - b.x, a.y - b.y, a.z - b.z⟩

/-- `Vec3::dot`. -/
def Vec3.dot (a b : Vec3) : ℝ := a.x * b.x + a.y * b.y + a.z * b.z

/-- `Vec3::cross`. -/
def Vec3.cross (a b : Vec3) : Vec3 :=
  ⟨a.y * b.z - a.z * b.y, a.z * b.x - a.x * b.z, a.x * b.y - a.y * b.x⟩

/-- `Vec3::length` = `sqrt(self · self)`. -/
def Vec3.length (a : Vec3) : ℝ := Real.sqrt (a.dot a)

/-- `Vec3::normalize` = `self / self.length()`.  (On a zero vector the
source produces non-finite components; the claims under study never
evaluate a rotation built from a zero direction.) -/
def Vec3.normalize (a : Vec3) : Vec3 :=
  ⟨a.x / a.length, a.y / a.length, a.z / a.length⟩

/-- A quaternion (glam `Quat`), components `(x, y, z, w)`. -/
structure Quat where
  x : ℝ
  y : ℝ
  z : ℝ
  w : ℝ

/-- `Quat::IDENTITY` = `(0, 0, 0, 1)`. -/
def Quat.identity : Quat := ⟨0, 0, 0, 1⟩

/-- `Quat::from_axis_angle`: `(axis * sin(angle * 0.5), cos(angle * 0.5))`. -/
def Quat.fromAxisAngle (axis : Vec3) (angle : ℝ) : Quat :=
  ⟨axis.x * Real.sin (angle * 0.5), axis.y * Real.sin (angle * 0.5),
   axis.z * Real.sin (angle * 0.5), Real.cos (angle * 0.5)⟩

/-- `rotation_between_vectors` (the Rotation Primitive), exactly as in
`crates/pose_adapter/src/lib.rs`: near-parallel → identity; near-anti-parallel
→ π about world Y when `|from.x| > 0.9`, else about world X; otherwise
axis-angle with `axis = normalize(from × to)`, `angle = acos(dot)`. -/
def rotationBetweenVectors (vfrom vto : Vec3) : Quat :=
  if vfrom.dot vto > 0.9999 then Quat.identity
  else if vfrom.dot vto < -0.9999 then
    Quat.fromAxisAngle
      (Vec3.normalize (if |vfrom.x| > 0.9 then ⟨0, 1, 0⟩ else ⟨1, 0, 0⟩))
      Real.pi
  else
    Quat.fromAxisAngle (Vec3.normalize (vfrom.cross vto))
      (Real.arccos (vfrom.dot vto))

/-- Modelled from the spec's sentence for the anti-parallel branch of the
Rotation Primitive — "pick an axis perpendicular to `from` (world Y, or
world X if `from` is nearly aligned with X)" — with the other two branches
as in the source.  It chooses world X when `|from.x| > 0.9` and world Y
otherwise, i.e. the opposite of the source's choice.  Used only to compare
the spec's wording against the source. -/
def rotationBetweenVectorsClaimed (vfrom vto : Vec3) : Quat :=
  if vfrom.dot vto > 0.9999 then Quat.identity
  else if vfrom.dot vto < -0.9999 then
    Quat.fromAxisAngle
      (Vec3.normalize (if |vfrom.x| > 0.9 then ⟨1, 0, 0⟩ else ⟨0, 1, 0⟩))
      Real.pi
  else
    Quat.fromAxisAngle (Vec3.normalize (vfrom.cross vto))
      (Real.arccos (vfrom.dot vto))

/-- A MediaPipe pose world landmark (`PoseWorldLandmark`). -/
structure Landmark where
  x : ℝ
  y : ℝ
  z : ℝ
  visibility : ℝ

/-- `PoseWorldLandmark::to_vec3`. -/
def Landmark.toVec3 (l : Landmark) : Vec3 := ⟨l.x, l.y, l.z⟩

/-- `f32::clamp(lo, hi)` on reals. -/
def clampR (x lo hi : ℝ) : ℝ := min (max x lo) hi

/-- A bone rotation for a VRM humanoid bone (`VrmBoneRotation`). -/
structure VrmBoneRotation where
  boneName : String
  rotation : Quat
  confidence : ℝ

/-- `VrmBoneRotation::new`: stores the confidence clamped to `[0, 1]`. -/
def VrmBoneRotation.new (boneName : String) (rotation : Quat) (confidence : ℝ) :
    VrmBoneRotation :=
  ⟨boneName, rotation, clampR confidence 0 1⟩

/-- `compute_left_upper_arm_rotation`.  The outer `Option` models the
unchecked slice accesses `landmarks[11]` and `landmarks[13]` (`none` marks
where the source would panic); the inner `Option` is the source's own
`Option` return value (visibility gating). -/
def computeLeftUpperArmRotation (landmarks : List Landmark) :
    Option (Option VrmBoneRotation) :=
  landmarks[11]?.bind fun (shoulder : Landmark) =>
  landmarks[13]?.bind fun (elbow : Landmark) =>
  some (if shoulder.visibility < 0.5 ∨ elbow.visibility < 0.5 then none
    else
      some (VrmBoneRotation.new "leftUpperArm"
        (rotationBetweenVectors ⟨-1, 0, 0⟩
          (Vec3.normalize (elbow.toVec3.sub shoulder.toVec3)))
        ((shoulder.visibility + elbow.visibility) / 2)))

/-- `compute_left_lower_arm_rotation` (indices 13, 15). -/
def computeLeftLowerArmRotation (landmarks : List Landmark) :
    Option (Option VrmBoneRotation) :=
  landmarks[13]?.bind fun (elbow : Landmark) =>
  landmarks[15]?.bind fun (wrist : Landmark) =>
  some (if elbow.visibility < 0.5 ∨ wrist.visibility < 0.5 then none
    else
      some (VrmBoneRotation.new "leftLowerArm"
        (rotationBetweenVectors ⟨-1, 0, 0⟩
          (Vec3.normalize (wrist.toVec3.sub elbow.toVec3)))
        ((elbow.visibility + wrist.visibility) / 2)))

/-- `compute_right_upper_arm_rotation` (indices 12, 14). -/
def computeRightUpperArmRotation (landmarks : List Landmark) :
    Option (Option VrmBoneRotation) :=
  landmarks[12]?.bind fun (shoulder : Landmark) =>
  landmarks[14]?.bind fun (elbow : Landmark) =>
  some (if shoulder.visibility < 0.5 ∨ elbow.visibility < 0.5 then none
    else
      some (VrmBoneRotation.new "rightUpperArm"
        (rotationBetweenVectors ⟨1, 0, 0⟩
          (Vec3.normalize (elbow.toVec3.sub shoulder.toVec3)))
        ((shoulder.visibility + elbow.visibility) / 2)))

/-- `compute_right_lower_arm_rotation` (indices 14, 16). -/
def computeRightLowerArmRotation (landmarks : List Landmark) :
    Option (Option VrmBoneRotation) :=
  landmarks[14]?.bind fun (elbow : Landmark) =>
  landmarks[16]?.bind fun (wrist : Landmark) =>
  some (if elbow.visibility < 0.5 ∨ wrist.visibility < 0.5 then none
    else
      some (VrmBoneRotation.new "rightLowerArm"
        (rotationBetweenVectors ⟨1, 0, 0⟩
          (Vec3.normalize (wrist.toVec3.sub elbow.toVec3)))
        ((elbow.visibility + wrist.visibility) / 2)))

/-- `compute_chest_rotation` (indices 11, 12). -/
def computeChestRotation (landmarks : List Landmark) :
    Option (Option VrmBoneRotation) :=
  landmarks[11]?.bind fun (leftShoulder : Landmark) =>
  landmarks[12]?.bind fun (rightShoulder : Landmark) =>
  some (if leftShoulder.visibility < 0.5 ∨ rightShoulder.visibility < 0.5 then none
    else
      some (VrmBoneRotation.new "chest"
        (rotationBetweenVectors ⟨1, 0, 0⟩
          (Vec3.normalize (rightShoulder.toVec3.sub leftShoulder.toVec3)))
        ((leftShoulder.visibility + rightShoulder.visibility) / 2)))

/-- `MediaPipePoseAdapter::landmarks_to_bone_rotations`.  Fewer than 33
landmarks → empty vector; otherwise the five joint computations run in
source order and each `Some` result is pushed.  The outer `Option` is `none`
exactly when one of the joint computations would panic on an out-of-bounds
index (proved impossible below). -/
def landmarksToBoneRotations (landmarks : List Landmark) :
    Option (List VrmBoneRotation) :=
  if landmarks.length < 33 then some []
  else
    (computeLeftUpperArmRotation landmarks).bind fun r1 =>
    (computeLeftLowerArmRotation landmarks).bind fun r2 =>
    (computeRightUpperArmRotation landmarks).bind fun r3 =>
    (computeRightLowerArmRotation landmarks).bind fun r4 =>
    (computeChestRotation landmarks).bind fun r5 =>
    some (r1.toList ++ r2.toList ++ r3.toList ++ r4.toList ++ r5.toList)

end

/-! ## Helper lemmas -/

theorem get?_isSome_of_lt {l : List Landmark} {i : ℕ} (h : i < l.length) :
    ∃ a, l[i]? = some a :=
  ⟨l.get ⟨i, h⟩, List.getElem?_eq_getElem h⟩

/-! ## Claims -/

/-- Claim C2: for every landmark sequence with fewer than 33 entries, the
pose mapper returns the empty list (and in particular does not panic),
regardless of the entries. -/
theorem pose_mapper_short_input_empty (landmarks : List Landmark)
    (h : landmarks.length < 33) : landmarksToBoneRotations landmarks = some [] := by
  simp [landmarksToBoneRotations, h]

/-- Witness for C2: the empty landmark list is shorter than 33 and maps to
the empty rotation list. -/
theorem pose_mapper_short_input_empty_witness :
    landmarksToBoneRotations [] = some [] :=
  pose_mapper_short_input_empty [] (by simp)

theorem landmarksToBoneRotations_isSome (landmarks : List Landmark) :
    (landmarksToBoneRotations landmarks).isSome = true := by
  by_cases h : landmarks.length < 33
  · simp [landmarksToBoneRotations, h]
  · obtain ⟨a11, h11⟩ := get?_isSome_of_lt (show 11 < landmarks.length by omega)
    obtain ⟨a12, h12⟩ := get?_isSome_of_lt (show 12 < landmarks.length by omega)
    obtain ⟨a13, h13⟩ := get?_isSome_of_lt (show 13 < landmarks.length by omega)
    obtain ⟨a14, h14⟩ := get?_isSome_of_lt (show 14 < landmarks.length by omega)
    obtain ⟨a15, h15⟩ := get?_isSome_of_lt (show 15 < landmarks.length by omega)
    obtain ⟨a16, h16⟩ := get?_isSome_of_lt (show 16 < landmarks.length by omega)
    simp [landmarksToBoneRotations, h, computeLeftUpperArmRotation,
      computeLeftLowerArmRotation, computeRightUpperArmRotation,
      computeRightLowerArmRotation, computeChestRotation,
      h11, h12, h13, h14, h15, h16]

/-- Claim C9: `landmarks_to_bone_rotations` is total: on a slice of any
length every landmark index it accesses is in bounds (they are at most 16
and only reached behind the length-≥-33 guard), so the function never
panics.  `isSome` says the run reaches no out-of-bounds access. -/
theorem pose_mapper_never_panics (landmarks : List Landmark) :
    (landmarksToBoneRotations landmarks).isSome = true :=
  landmarksToBoneRotations_isSome landmarks

/-- Claim C8: both mappers are deterministic pure functions: equal inputs
give equal outputs, with no dependence on prior calls or state (in this
embedding both are functions of their argument alone, so determinism is the
congruence of application). -/
theorem mappers_deterministic :
    (∀ f g : BlendshapeFrame, f = g → toVrmExpressions f = toVrmExpressions g) ∧
    (∀ l m : List Landmark, l = m →
      landmarksToBoneRotations l = landmarksToBoneRotations m) :=
  ⟨fun _ _ h => by rw [h], fun _ _ h => by rw [h]⟩

/-- Witness for C8: repeated calls on one concrete frame and one concrete
landmark list agree. -/
theorem mappers_deterministic_witness :
    toVrmExpressions [("eyeBlinkLeft", 0.8)] = toVrmExpressions [("eyeBlinkLeft", 0.8)] ∧
    landmarksToBoneRotations [] = landmarksToBoneRotations [] :=
  ⟨mappers_deterministic.1 _ _ rfl, mappers_deterministic.2 _ _ rfl⟩

/-- Claim C10: the pose mapper reads only the landmarks at indices 11–16
(shoulders, elbows, wrists): two 33-entry sequences agreeing there map to
the same rotation list, whatever the other 27 entries hold. -/
theorem pose_mapper_reads_only_upper_body (l1 l2 : List Landmark)
    (h1 : l1.length = 33) (h2 : l2.length = 33)
    (hagree : ∀ i : ℕ, 11 ≤ i → i ≤ 16 → l1[i]? = l2[i]?) :
    landmarksToBoneRotations l1 = landmarksToBoneRotations l2 := by
  have e11 := hagree 11 (by norm_num) (by norm_num)
  have e12 := hagree 12 (by norm_num) (by norm_num)
  have e13 := hagree 13 (by norm_num) (by norm_num)
  have e14 := hagree 14 (by norm_num) (by norm_num)
  have e15 := hagree 15 (by norm_num) (by norm_num)
  have e16 := hagree 16 (by norm_num) (by norm_num)
  simp only [landmarksToBoneRotations, computeLeftUpperArmRotation,
    computeLeftLowerArmRotation, computeRightUpperArmRotation,
    computeRightLowerArmRotation, computeChestRotation,
    h1, h2, e11, e12, e13, e14, e15, e16]

/-- Witness for C10: a 33-entry list of invisible landmarks and the same list
with a different entry at index 0 map to the same output. -/
theorem pose_mapper_reads_only_upper_body_witness :
    landmarksToBoneRotations (List.replicate 33 ⟨0, 0, 0, 0⟩) =
      landmarksToBoneRotations (⟨1, 2, 3, 1⟩ :: List.replicate 32 ⟨0, 0, 0, 0⟩) := by
  refine pose_mapper_reads_only_upper_body _ _ (by simp) (by simp) ?_
  intro i hlo hhi
  interval_cases i <;> rfl

theorem clampR_eq_of_unit {x : ℝ} (h0 : 0 ≤ x) (h1 : x ≤ 1) : clampR x 0 1 = x := by
  rw [clampR, max_eq_left h0, min_eq_left h1]

theorem computeLeftUpperArmRotation_eq {l : List Landmark} {a b : Landmark}
    (ha : l[11]? = some a) (hb : l[13]? = some b) :
    computeLeftUpperArmRotation l =
      some (if a.visibility < 0.5 ∨ b.visibility < 0.5 then none
        else some (VrmBoneRotation.new "leftUpperArm"
          (rotationBetweenVectors ⟨-1, 0, 0⟩
            (Vec3.normalize (b.toVec3.sub a.toVec3)))
          ((a.visibility + b.visibility) / 2))) := by
  simp [computeLeftUpperArmRotation, ha, hb]

theorem computeLeftLowerArmRotation_eq {l : List Landmark} {a b : Landmark}
    (ha : l[13]? = some a) (hb : l[15]? = some b) :
    computeLeftLowerArmRotation l =
      some (if a.visibility < 0.5 ∨ b.visibility < 0.5 then none
        else some (VrmBoneRotation.new "leftLowerArm"
          (rotationBetweenVectors ⟨-1, 0, 0⟩
            (Vec3.normalize (b.toVec3.sub a.toVec3)))
          ((a.visibility + b.visibility) / 2))) := by
  simp [computeLeftLowerArmRotation, ha, hb]

theorem computeRightUpperArmRotation_eq {l : List Landmark} {a b : Landmark}
    (ha : l[12]? = some a) (hb : l[14]? = some b) :
    computeRightUpperArmRotation l =
      some (if a.visibility < 0.5 ∨ b.visibility < 0.5 then none
        else some (VrmBoneRotation.new "rightUpperArm"
          (rotationBetweenVectors ⟨1, 0, 0⟩
            (Vec3.normalize (b.toVec3.sub a.toVec3)))
          ((a.visibility + b.visibility) / 2))) := by
  simp [computeRightUpperArmRotation, ha, hb]

theorem computeRightLowerArmRotation_eq {l : List Landmark} {a b : Landmark}
    (ha : l[14]? = some a) (hb : l[16]? = some b) :
    computeRightLowerArmRotation l =
      some (if a.visibility < 0.5 ∨ b.visibility < 0.5 then none
        else some (VrmBoneRotation.new "rightLowerArm"
          (rotationBetweenVectors ⟨1, 0, 0⟩
            (Vec3.normalize (b.toVec3.sub a.toVec3)))
          ((a.visibility + b.visibility) / 2))) := by
  simp [computeRightLowerArmRotation, ha, hb]

theorem computeChestRotation_eq {l : List Landmark} {a b : Landmark}
    (ha : l[11]? = some a) (hb : l[12]? = some b) :
    computeChestRotation l =
      some (if a.visibility < 0.5 ∨ b.visibility < 0.5 then none
        else some (VrmBoneRotation.new "chest"
          (rotationBetweenVectors ⟨1, 0, 0⟩
            (Vec3.normalize (b.toVec3.sub a.toVec3)))
          ((a.visibility + b.visibility) / 2))) := by
  simp [computeChestRotation, ha, hb]

theorem gating_emission {a b : Landmark} {name : String} {rot : Quat}
    {o : Option (Option VrmBoneRotation)}
    (ho : o = some (if a.visibility < 0.5 ∨ b.visibility < 0.5 then none
      else some (VrmBoneRotation.new name rot ((a.visibility + b.visibility) / 2))))
    (ha : 0 ≤ a.visibility ∧ a.visibility ≤ 1)
    (hb : 0 ≤ b.visibility ∧ b.visibility ≤ 1) :
    (a.visibility < 0.5 ∨ b.visibility < 0.5 → o = some none) ∧
    (0.5 ≤ a.visibility → 0.5 ≤ b.visibility →
      ∃ r, o = some (some r) ∧ r.boneName = name ∧
        r.confidence = (a.visibility + b.visibility) / 2) := by
  constructor
  · intro h
    rw [ho, if_pos h]
  · intro h1 h2
    refine ⟨_, by rw [ho, if_neg (by push_neg; exact ⟨h1, h2⟩)], rfl, ?_⟩
    show clampR _ 0 1 = _
    exact clampR_eq_of_unit (by linarith [ha.1, hb.1]) (by linarith [ha.2, hb.2])

/-- Claim C4: per joint, the bone rotation is omitted exactly when a
landmark's visibility is below 0.5, and otherwise carries confidence equal
to the mean of the two visibilities; with all six arm landmarks at
visibility 0.9 the output is exactly the five bones `leftUpperArm`,
`leftLowerArm`, `rightUpperArm`, `rightLowerArm`, `chest`, and with all
visibilities 0 the output is empty.  (Visibilities are in `[0, 1]` per the
landmark data model.) -/
theorem pose_joint_gating_and_confidence (l : List Landmark)
    (s11 s12 s13 s14 s15 s16 : Landmark)
    (h11 : l[11]? = some s11) (h12 : l[12]? = some s12)
    (h13 : l[13]? = some s13) (h14 : l[14]? = some s14)
    (h15 : l[15]? = some s15) (h16 : l[16]? = some s16)
    (hlen : l.length = 33)
    (hvis : ∀ lm ∈ l, 0 ≤ lm.visibility ∧ lm.visibility ≤ 1) :
    ((s11.visibility < 0.5 ∨ s13.visibility < 0.5 →
        computeLeftUpperArmRotation l = some none) ∧
      (0.5 ≤ s11.visibility → 0.5 ≤ s13.visibility →
        ∃ r, computeLeftUpperArmRotation l = some (some r) ∧
          r.boneName = "leftUpperArm" ∧
          r.confidence = (s11.visibility + s13.visibility) / 2)) ∧
    ((s13.visibility < 0.5 ∨ s15.visibility < 0.5 →
        computeLeftLowerArmRotation l = some none) ∧
      (0.5 ≤ s13.visibility → 0.5 ≤ s15.visibility →
        ∃ r, computeLeftLowerArmRotation l = some (some r) ∧
          r.boneName = "leftLowerArm" ∧
          r.confidence = (s13.visibility + s15.visibility) / 2)) ∧
    ((s12.visibility < 0.5 ∨ s14.visibility < 0.5 →
        computeRightUpperArmRotation l = some none) ∧
      (0.5 ≤ s12.visibility → 0.5 ≤ s14.visibility →
        ∃ r, computeRightUpperArmRotation l = some (some r) ∧
          r.boneName = "rightUpperArm" ∧
          r.confidence = (s12.visibility + s14.visibility) / 2)) ∧
    ((s14.visibility < 0.5 ∨ s16.visibility < 0.5 →
        computeRightLowerArmRotation l = some none) ∧
      (0.5 ≤ s14.visibility → 0.5 ≤ s16.visibility →
        ∃ r, computeRightLowerArmRotation l = some (some r) ∧
          r.boneName = "rightLowerArm" ∧
          r.confidence = (s14.visibility + s16.visibility) / 2)) ∧
    ((s11.visibility < 0.5 ∨ s12.visibility < 0.5 →
        computeChestRotation l = some none) ∧
      (0.5 ≤ s11.visibility → 0.5 ≤ s12.visibility →
        ∃ r, computeChestRotation l = some (some r) ∧
          r.boneName = "chest" ∧
          r.confidence = (s11.visibility + s12.visibility) / 2)) ∧
    (s11.visibility = 0.9 → s12.visibility = 0.9 → s13.visibility = 0.9 →
      s14.visibility = 0.9 → s15.visibility = 0.9 → s16.visibility = 0.9 →
      ∃ rs, landmarksToBoneRotations l = some rs ∧
        rs.map VrmBoneRotation.boneName =
          ["leftUpperArm", "leftLowerArm", "rightUpperArm", "rightLowerArm",
            "chest"]) ∧
    ((∀ lm ∈ l, lm.visibility = 0) → landmarksToBoneRotations l = some []) := by
  have m11 := hvis s11 (List.getElem?_mem h11)
  have m12 := hvis s12 (List.getElem?_mem h12)
  have m13 := hvis s13 (List.getElem?_mem h13)
  have m14 := hvis s14 (List.getElem?_mem h14)
  have m15 := hvis s15 (List.getElem?_mem h15)
  have m16 := hvis s16 (List.getElem?_mem h16)
  have c1 := computeLeftUpperArmRotation_eq h11 h13
  have c2 := computeLeftLowerArmRotation_eq h13 h15
  have c3 := computeRightUpperArmRotation_eq h12 h14
  have c4 := computeRightLowerArmRotation_eq h14 h16
  have c5 := computeChestRotation_eq h11 h12
  have g1 := gating_emission c1 m11 m13
  have g2 := gating_emission c2 m13 m15
  have g3 := gating_emission c3 m12 m14
  have g4 := gating_emission c4 m14 m16
  have g5 := gating_emission c5 m11 m12
  refine ⟨g1, g2, g3, g4, g5, ?_, ?_⟩
  · intro v11 v12 v13 v14 v15 v16
    obtain ⟨r1, e1, n1, -⟩ := g1.2 (by rw [v11]; norm_num) (by rw [v13]; norm_num)
    obtain ⟨r2, e2, n2, -⟩ := g2.2 (by rw [v13]; norm_num) (by rw [v15]; norm_num)
    obtain ⟨r3, e3, n3, -⟩ := g3.2 (by rw [v12]; norm_num) (by rw [v14]; norm_num)
    obtain ⟨r4, e4, n4, -⟩ := g4.2 (by rw [v14]; norm_num) (by rw [v16]; norm_num)
    obtain ⟨r5, e5, n5, -⟩ := g5.2 (by rw [v11]; norm_num) (by rw [v12]; norm_num)
    refine ⟨[r1, r2, r3, r4, r5], ?_, by simp [n1, n2, n3, n4, n5]⟩
    simp only [landmarksToBoneRotations]
    rw [if_neg (by omega)]
    simp [e1, e2, e3, e4, e5]
  · intro hz
    have q1 := g1.1 (Or.inl (by rw [hz s11 (List.getElem?_mem h11)]; norm_num))
    have q2 := g2.1 (Or.inl (by rw [hz s13 (List.getElem?_mem h13)]; norm_num))
    have q3 := g3.1 (Or.inl (by rw [hz s12 (List.getElem?_mem h12)]; norm_num))
    have q4 := g4.1 (Or.inl (by rw [hz s14 (List.getElem?_mem h14)]; norm_num))
    have q5 := g5.1 (Or.inl (by rw [hz s11 (List.getElem?_mem h11)]; norm_num))
    simp only [landmarksToBoneRotations]
    rw [if_neg (by omega)]
    simp [q1, q2, q3, q4, q5]

/-- Witness for C4: 33 landmarks all at visibility 0.9 produce exactly the
five named bone rotations. -/
theorem pose_joint_gating_and_confidence_witness :
    ∃ rs, landmarksToBoneRotations (List.replicate 33 ⟨0, 0, 0, 0.9⟩) = some rs ∧
      rs.map VrmBoneRotation.boneName =
        ["leftUpperArm", "leftLowerArm", "rightUpperArm", "rightLowerArm",
          "chest"] := by
  refine (pose_joint_gating_and_confidence (List.replicate 33 ⟨0, 0, 0, 0.9⟩)
    ⟨0, 0, 0, 0.9⟩ ⟨0, 0, 0, 0.9⟩ ⟨0, 0, 0, 0.9⟩ ⟨0, 0, 0, 0.9⟩ ⟨0, 0, 0, 0.9⟩
    ⟨0, 0, 0, 0.9⟩ rfl rfl rfl rfl rfl rfl (by simp) ?_).2.2.2.2.2.1
    rfl rfl rfl rfl rfl rfl
  intro lm hm
  rw [List.eq_of_mem_replicate hm]
  norm_num

theorem clampQ_unit (w : ℚ) : 0 ≤ clampQ w 0 1 ∧ clampQ w 0 1 ≤ 1 :=
  ⟨le_min (le_max_right w 0) zero_le_one, min_le_right _ _⟩

theorem clampR_unit (x : ℝ) : 0 ≤ clampR x 0 1 ∧ clampR x 0 1 ≤ 1 :=
  ⟨le_min (le_max_right x 0) zero_le_one, min_le_right _ _⟩

theorem mem_ite_singleton {α} {c : Prop} [Decidable c] {e a : α}
    (h : e ∈ (if c then [a] else [])) : e = a := by
  split at h
  · simpa using h
  · simp at h

theorem mem_toList_gated {c : Prop} [Decidable c] {r b : VrmBoneRotation}
    (h : b ∈ (if c then none else some r).toList) : b = r := by
  split at h
  · simp at h
  · simpa using h

/-- Claim C3: every weight the expression mapper emits and every confidence
the pose mapper emits lies in `[0, 1]`, for arbitrary inputs. -/
theorem emitted_values_in_unit_interval :
    (∀ raw : BlendshapeFrame, ∀ e ∈ toVrmExpressions raw,
      0 ≤ e.weight ∧ e.weight ≤ 1) ∧
    (∀ (l : List Landmark) (rs : List VrmBoneRotation),
      landmarksToBoneRotations l = some rs →
      ∀ b ∈ rs, 0 ≤ b.confidence ∧ b.confidence ≤ 1) := by
  constructor
  · intro raw e he
    simp only [toVrmExpressions, List.mem_append] at he
    rcases he with ((((((((((h | h) | h) | h) | h) | h) | h) | h) | h) | h) | h) | h <;>
      rw [mem_ite_singleton h] <;> exact clampQ_unit _
  · intro l rs heq b hb
    by_cases hlen : l.length < 33
    · rw [landmarksToBoneRotations.eq_def, if_pos hlen] at heq
      cases heq
      simp at hb
    · obtain ⟨a11, h11⟩ := get?_isSome_of_lt (show 11 < l.length by omega)
      obtain ⟨a12, h12⟩ := get?_isSome_of_lt (show 12 < l.length by omega)
      obtain ⟨a13, h13⟩ := get?_isSome_of_lt (show 13 < l.length by omega)
      obtain ⟨a14, h14⟩ := get?_isSome_of_lt (show 14 < l.length by omega)
      obtain ⟨a15, h15⟩ := get?_isSome_of_lt (show 15 < l.length by omega)
      obtain ⟨a16, h16⟩ := get?_isSome_of_lt (show 16 < l.length by omega)
      rw [landmarksToBoneRotations.eq_def, if_neg hlen,
        computeLeftUpperArmRotation_eq h11 h13,
        computeLeftLowerArmRotation_eq h13 h15,
        computeRightUpperArmRotation_eq h12 h14,
        computeRightLowerArmRotation_eq h14 h16,
        computeChestRotation_eq h11 h12] at heq
      simp only [Option.some_bind, Option.some.injEq] at heq
      rw [← heq] at hb
      simp only [List.mem_append] at hb
      rcases hb with (((h | h) | h) | h) | h <;>
        rw [mem_toList_gated h] <;> exact clampR_unit _

/-- Witness for C3: a concrete emitted blink weight is within `[0, 1]`. -/
theorem emitted_values_in_unit_interval_witness :
    0 ≤ (VrmExpression.new .BlinkLeft 0.8).weight ∧
      (VrmExpression.new .BlinkLeft 0.8).weight ≤ 1 :=
  emitted_values_in_unit_interval.1 [("eyeBlinkLeft", 0.8)] _
    (by norm_num +decide [toVrmExpressions, getBlendshape, lookupQ, blinkMean,
      smileMean, frownMean, lookUpMean, lookDownMean, lookLeftMean,
      lookRightMean])

theorem filter_gated_ne {c : Prop} [Decidable c] {p q : VrmExpressionPreset} {w : ℚ}
    (h : ¬ p = q) :
    List.filter (fun e => e.preset = q) (if c then [VrmExpression.new p w] else []) = [] := by
  split
  · simp [VrmExpression.new, h]
  · rfl

theorem filter_gated_eq {c : Prop} [Decidable c] {q : VrmExpressionPreset} {w : ℚ} :
    List.filter (fun e => e.preset = q) (if c then [VrmExpression.new q w] else []) =
      if c then [VrmExpression.new q w] else [] := by
  split
  · simp [VrmExpression.new]
  · rfl

/-- Claim C5 (amended): `happy` is emitted, with the smile mean clamped to
`[0, 1]` as its weight, exactly when the smile mean strictly exceeds 0.3 —
at exactly 0.3 nothing, at 0.30001 emitted — and the analogous strict rule
holds for `sad` over the frown mean. -/
theorem happy_sad_threshold :
    (∀ raw : BlendshapeFrame,
      (toVrmExpressions raw).filter (fun e => e.preset = VrmExpressionPreset.Happy) =
        (if smileMean raw > 0.3 then
          [VrmExpression.new .Happy (smileMean raw)] else [])) ∧
    (∀ raw : BlendshapeFrame,
      (toVrmExpressions raw).filter (fun e => e.preset = VrmExpressionPreset.Sad) =
        (if frownMean raw > 0.3 then
          [VrmExpression.new .Sad (frownMean raw)] else [])) ∧
    (toVrmExpressions [("mouthSmileLeft", 0.3), ("mouthSmileRight", 0.3)]).filter
      (fun e => e.preset = VrmExpressionPreset.Happy) = [] ∧
    (toVrmExpressions [("mouthSmileLeft", 0.30001), ("mouthSmileRight", 0.30001)]).filter
      (fun e => e.preset = VrmExpressionPreset.Happy) =
      [VrmExpression.new .Happy 0.30001] := by
  have hH : ∀ raw : BlendshapeFrame,
      (toVrmExpressions raw).filter (fun e => e.preset = VrmExpressionPreset.Happy) =
        (if smileMean raw > 0.3 then
          [VrmExpression.new .Happy (smileMean raw)] else []) := by
    intro raw
    simp [toVrmExpressions, List.filter_append, filter_gated_ne, filter_gated_eq]
  have hS : ∀ raw : BlendshapeFrame,
      (toVrmExpressions raw).filter (fun e => e.preset = VrmExpressionPreset.Sad) =
        (if frownMean raw > 0.3 then
          [VrmExpression.new .Sad (frownMean raw)] else []) := by
    intro raw
    simp [toVrmExpressions, List.filter_append, filter_gated_ne, filter_gated_eq]
  refine ⟨hH, hS, ?_, ?_⟩
  · rw [hH]
    norm_num +decide [smileMean, getBlendshape, lookupQ]
  · rw [hH]
    norm_num +decide [smileMean, getBlendshape, lookupQ]

/-- Counterexample to C5 as stated: on the frame
`{mouthSmileLeft: 2, mouthSmileRight: 2}` the smile mean is 2 > 0.3, yet no
emitted expression carries weight equal to that mean — the emitted `happy`
weight is the clamped value 1. -/
theorem happy_weight_counterexample :
    smileMean [("mouthSmileLeft", 2), ("mouthSmileRight", 2)] > 0.3 ∧
    ¬ ∃ e ∈ toVrmExpressions [("mouthSmileLeft", 2), ("mouthSmileRight", 2)],
      e.preset = VrmExpressionPreset.Happy ∧
      e.weight = smileMean [("mouthSmileLeft", 2), ("mouthSmileRight", 2)] := by
  constructor
  · norm_num [smileMean, getBlendshape, lookupQ]
  · norm_num +decide [toVrmExpressions, smileMean, getBlendshape, lookupQ,
      blinkMean, frownMean, lookUpMean, lookDownMean, lookLeftMean,
      lookRightMean, VrmExpression.new, clampQ]

/-- Claim C6 (amended): `blinkLeft` and `blinkRight` are emitted, with the
raw per-eye closure coefficient clamped to `[0, 1]` as weight, exactly when
that coefficient is positive, and `blink` likewise with the clamped mean;
for eyeBlinkLeft = 0.8 and eyeBlinkRight = 0.9 the output is exactly
blinkLeft = 0.8, blinkRight = 0.9, blink = 0.85. -/
theorem blink_mapping :
    (∀ raw : BlendshapeFrame,
      (toVrmExpressions raw).filter (fun e => e.preset = VrmExpressionPreset.BlinkLeft) =
        (if getBlendshape raw "eyeBlinkLeft" > 0 then
          [VrmExpression.new .BlinkLeft (getBlendshape raw "eyeBlinkLeft")] else [])) ∧
    (∀ raw : BlendshapeFrame,
      (toVrmExpressions raw).filter (fun e => e.preset = VrmExpressionPreset.BlinkRight) =
        (if getBlendshape raw "eyeBlinkRight" > 0 then
          [VrmExpression.new .BlinkRight (getBlendshape raw "eyeBlinkRight")] else [])) ∧
    (∀ raw : BlendshapeFrame,
      (toVrmExpressions raw).filter (fun e => e.preset = VrmExpressionPreset.Blink) =
        (if blinkMean raw > 0 then
          [VrmExpression.new .Blink (blinkMean raw)] else [])) ∧
    toVrmExpressions [("eyeBlinkLeft", 0.8), ("eyeBlinkRight", 0.9)] =
      [VrmExpression.new .BlinkLeft 0.8, VrmExpression.new .BlinkRight 0.9,
        VrmExpression.new .Blink 0.85] := by
  refine ⟨?_, ?_, ?_, ?_⟩
  · intro raw
    simp [toVrmExpressions, List.filter_append, filter_gated_ne, filter_gated_eq]
  · intro raw
    simp [toVrmExpressions, List.filter_append, filter_gated_ne, filter_gated_eq]
  · intro raw
    simp [toVrmExpressions, List.filter_append, filter_gated_ne, filter_gated_eq]
  · norm_num +decide [toVrmExpressions, getBlendshape, lookupQ, blinkMean,
      smileMean, frownMean, lookUpMean, lookDownMean, lookLeftMean,
      lookRightMean]

/-- Counterexample to C6 as stated: on the frame `{eyeBlinkLeft: 2}` the raw
coefficient is 2 > 0, yet no emitted expression carries the raw value 2 as
its weight — the emitted `blinkLeft` weight is the clamped value 1. -/
theorem blink_weight_counterexample :
    getBlendshape [("eyeBlinkLeft", 2)] "eyeBlinkLeft" > 0 ∧
    ¬ ∃ e ∈ toVrmExpressions [("eyeBlinkLeft", 2)],
      e.preset = VrmExpressionPreset.BlinkLeft ∧
      e.weight = getBlendshape [("eyeBlinkLeft", 2)] "eyeBlinkLeft" := by
  constructor
  · norm_num [getBlendshape, lookupQ]
  · norm_num +decide [toVrmExpressions, getBlendshape, lookupQ, blinkMean,
      smileMean, frownMean, lookUpMean, lookDownMean, lookLeftMean,
      lookRightMean, VrmExpression.new, clampQ]

theorem getBlendshape_append_absent {raw : BlendshapeFrame} {name : String}
    (h : lookupQ raw name = none) (n : String) :
    getBlendshape (raw ++ [(name, 0)]) n = getBlendshape raw n := by
  induction raw with
  | nil =>
    simp only [List.nil_append, getBlendshape, lookupQ]
    split
    · simp_all [lookupQ]
    · rfl
  | cons kv rest ih =>
    obtain ⟨k, v⟩ := kv
    rw [lookupQ] at h
    split at h
    · exact absurd h (by simp)
    · simp only [List.cons_append, getBlendshape, lookupQ]
      split
      · rfl
      · exact ih h

/-- Claim C7: a named coefficient absent from the frame is treated as 0.0:
inserting any absent name with value 0 leaves the expression mapper's output
unchanged, and neither mapper has an error path (the expression mapper is a
total function; the pose mapper never reaches an out-of-bounds access). -/
theorem missing_coefficient_defaults_to_zero :
    (∀ (raw : BlendshapeFrame) (name : String), lookupQ raw name = none →
      toVrmExpressions (raw ++ [(name, 0)]) = toVrmExpressions raw) ∧
    (∀ landmarks : List Landmark,
      (landmarksToBoneRotations landmarks).isSome = true) := by
  constructor
  · intro raw name h
    simp only [toVrmExpressions, blinkMean, smileMean, frownMean, lookUpMean,
      lookDownMean, lookLeftMean, lookRightMean, getBlendshape_append_absent h]
  · exact landmarksToBoneRotations_isSome

/-- Witness for C7: inserting the absent name `jawOpen` with value 0 leaves
the output on `{eyeBlinkLeft: 1}` unchanged. -/
theorem missing_coefficient_defaults_to_zero_witness :
    toVrmExpressions [("eyeBlinkLeft", 1), ("jawOpen", 0)] =
      toVrmExpressions [("eyeBlinkLeft", 1)] :=
  missing_coefficient_defaults_to_zero.1 [("eyeBlinkLeft", 1)] "jawOpen"
    (by decide)

/-- Counterexample to C1 as stated: at `from = (-1,0,0)`, `to = (1,0,0)`
(anti-parallel unit vectors, `from` aligned with X) the source rotates about
world Y, while the claim's axis rule ("world Y, or world X if `from` is
nearly aligned with X") picks world X; the resulting quaternions differ. -/
theorem rotation_axis_choice_counterexample :
    rotationBetweenVectors ⟨-1, 0, 0⟩ ⟨1, 0, 0⟩ ≠
      rotationBetweenVectorsClaimed ⟨-1, 0, 0⟩ ⟨1, 0, 0⟩ := by
  have hs : Real.sin (Real.pi * 0.5) = 1 := by
    rw [show Real.pi * 0.5 = Real.pi / 2 by ring, Real.sin_pi_div_two]
  have hn1 : Vec3.normalize ⟨0, 1, 0⟩ = ⟨0, 1, 0⟩ := by
    norm_num [Vec3.normalize, Vec3.length, Vec3.dot, Real.sqrt_one]
  have hn2 : Vec3.normalize ⟨1, 0, 0⟩ = ⟨1, 0, 0⟩ := by
    norm_num [Vec3.normalize, Vec3.length, Vec3.dot, Real.sqrt_one]
  have e1 : rotationBetweenVectors ⟨-1, 0, 0⟩ ⟨1, 0, 0⟩ =
      Quat.fromAxisAngle (Vec3.normalize ⟨0, 1, 0⟩) Real.pi := by
    rw [rotationBetweenVectors.eq_def]
    norm_num [Vec3.dot]
  have e2 : rotationBetweenVectorsClaimed ⟨-1, 0, 0⟩ ⟨1, 0, 0⟩ =
      Quat.fromAxisAngle (Vec3.normalize ⟨1, 0, 0⟩) Real.pi := by
    rw [rotationBetweenVectorsClaimed.eq_def]
    norm_num [Vec3.dot]
  rw [e1, e2, hn1, hn2]
  intro h
  have hy := congrArg Quat.y h
  simp only [Quat.fromAxisAngle] at hy
  rw [hs] at hy
  norm_num at hy

/-- Claim C1 (amended): the Rotation Primitive computes `dot = from·to`;
`dot > 0.9999` returns the identity (so `from = to` with `from` unit gives
the identity exactly); `dot < -0.9999` returns the rotation of angle π about
world Y when `from` is nearly aligned with X (`|from.x| > 0.9`) and about
world X otherwise; in every other case it returns the axis-angle quaternion
with `axis = normalize(from × to)` and `angle = acos(dot)`. -/
theorem rotation_primitive_spec (vfrom vto : Vec3) :
    (vfrom.dot vto > 0.9999 → rotationBetweenVectors vfrom vto = Quat.identity) ∧
    (vfrom.dot vto < -0.9999 →
      rotationBetweenVectors vfrom vto =
        Quat.fromAxisAngle
          (Vec3.normalize (if |vfrom.x| > 0.9 then ⟨0, 1, 0⟩ else ⟨1, 0, 0⟩))
          Real.pi) ∧
    (¬ vfrom.dot vto > 0.9999 → ¬ vfrom.dot vto < -0.9999 →
      rotationBetweenVectors vfrom vto =
        Quat.fromAxisAngle (Vec3.normalize (vfrom.cross vto))
          (Real.arccos (vfrom.dot vto))) ∧
    (vfrom.dot vfrom = 1 → rotationBetweenVectors vfrom vfrom = Quat.identity) := by
  refine ⟨fun h => ?_, fun h => ?_, fun h1 h2 => ?_, fun h => ?_⟩
  · rw [rotationBetweenVectors.eq_def, if_pos h]
  · rw [rotationBetweenVectors.eq_def, if_neg (by push_neg; linarith), if_pos h]
  · rw [rotationBetweenVectors.eq_def, if_neg h1, if_neg h2]
  · rw [rotationBetweenVectors.eq_def, if_pos (by rw [h]; norm_num)]

/-- Witness for C1: a unit vector rotated onto itself yields the identity
quaternion. -/
theorem rotation_primitive_spec_witness :
    rotationBetweenVectors ⟨1, 0, 0⟩ ⟨1, 0, 0⟩ = Quat.identity :=
  (rotation_primitive_spec ⟨1, 0, 0⟩ ⟨1, 0, 0⟩).2.2.2 (by norm_num [Vec3.dot])

end VrmFaceTracking
